import Mathlib

set_option maxHeartbeats 1000000

/-
Verification development for the Ghost Diamonds persistence layer.

The definitions below are a shallow embedding of the TypeScript source:
* `src/diamonds/robust-diamond-persistence.ts` (robust counter writes/reads,
  retry queue, integrity check),
* `src/systems/ghost-positions-persistence.ts` (leader election and the
  batch writer for ghost positions),
* `src/diamonds/diamond-states-persistence.ts` (per-player lifecycle
  documents and collect timers).

JavaScript numbers standing for counters are modelled as `Nat`, wall-clock
millisecond timestamps as `Int` (or `Rat` where the code divides by 1000),
and fallible network calls as explicit outcome parameters threaded into the
functions.  Module-level mutable state is passed as explicit state records.
-/

namespace GhostDiamonds

/-- Result of a JS async operation: a value, or a thrown `Error` carrying
its `message` string. -/
inductive JsResult (T : Type) where
  | ok : T → JsResult T
  | err : String → JsResult T
deriving DecidableEq, Repr

/-- JS `String.prototype.includes`: `pat` occurs contiguously in `s`. -/
def strIncludes (s pat : String) : Bool :=
  decide (List.IsInfix pat.toList s.toList)

/-- The environment-teardown test used throughout the source:
`error.message.includes('CancellationTokenSource') || error.message.includes('disposed')`. -/
def isTeardownError (msg : String) : Bool :=
  strIncludes msg "CancellationTokenSource" || strIncludes msg "disposed"

/-- `const MAX_RETRY_ATTEMPTS = 3` (robust-diamond-persistence.ts). -/
def MAX_RETRY_ATTEMPTS : Nat := 3

/-- `const RETRY_DELAY_MS = 1000` (robust-diamond-persistence.ts). -/
def RETRY_DELAY_MS : Nat := 1000

/-- `const RETRY_BACKOFF_MULTIPLIER = 2` (robust-diamond-persistence.ts). -/
def RETRY_BACKOFF_MULTIPLIER : Nat := 2

/-- Observable trace of one `retryWithBackoff` run: the final result, the
1-based attempt numbers at which `operation` was invoked, and the delays
(in ms) awaited between consecutive attempts. -/
structure RetryTrace (T : Type) where
  result : JsResult T
  calls : List Nat
  delays : List Nat
deriving DecidableEq, Repr

/-- The body of `retryWithBackoff`'s `for` loop, iterated over the list of
remaining attempt numbers (`attempt = 1 .. maxAttempts`).  The operation is
modelled as a function from the attempt number to its outcome.  A teardown
error (`CancellationTokenSource` / `disposed` in the message) is re-thrown
immediately; on `attempt === maxAttempts` the last error is thrown;
otherwise the loop waits `baseDelay * RETRY_BACKOFF_MULTIPLIER ^ (attempt - 1)`
ms and continues.  The `[]` case models the `throw lastError!` after a loop
that never ran (only reachable with `maxAttempts = 0`). -/
def retryGo {T : Type} (op : Nat → JsResult T) (maxAttempts baseDelay : Nat) :
    List Nat → RetryTrace T
  | [] => ⟨.err "", [], []⟩
  | attempt :: rest =>
    match op attempt with
    | .ok v => ⟨.ok v, [attempt], []⟩
    | .err m =>
      if isTeardownError m then ⟨.err m, [attempt], []⟩
      else if attempt = maxAttempts then ⟨.err m, [attempt], []⟩
      else
        let t := retryGo op maxAttempts baseDelay rest
        ⟨t.result, attempt :: t.calls,
          baseDelay * RETRY_BACKOFF_MULTIPLIER ^ (attempt - 1) :: t.delays⟩

/-- `retryWithBackoff(operation, maxAttempts, baseDelay)`. -/
def retryWithBackoff {T : Type} (op : Nat → JsResult T)
    (maxAttempts baseDelay : Nat) : RetryTrace T :=
  retryGo op maxAttempts baseDelay (List.range' 1 maxAttempts)

/-- `retryWithBackoff` at its default parameters
(`maxAttempts = MAX_RETRY_ATTEMPTS`, `baseDelay = RETRY_DELAY_MS`). -/
def retryWithBackoffDefault {T : Type} (op : Nat → JsResult T) : RetryTrace T :=
  retryWithBackoff op MAX_RETRY_ATTEMPTS RETRY_DELAY_MS

lemma range'_one_three : List.range' 1 3 = [1, 2, 3] := rfl

/-- Every run of `retryWithBackoff` at default parameters invokes the
operation at most 3 times, and the awaited delays are a prefix of
`[1000, 2000]`. -/
lemma retryDefault_obs {T : Type} (op : Nat → JsResult T) :
    (retryWithBackoffDefault op).calls.length ≤ 3 ∧
    ((retryWithBackoffDefault op).delays = [] ∨
      (retryWithBackoffDefault op).delays = [1000] ∨
      (retryWithBackoffDefault op).delays = [1000, 2000]) := by
  unfold retryWithBackoffDefault retryWithBackoff MAX_RETRY_ATTEMPTS RETRY_DELAY_MS
  rw [range'_one_three]
  rcases h1 : op 1 with v1 | m1
  · simp [retryGo, h1]
  · by_cases t1 : isTeardownError m1 = true
    · simp [retryGo, h1, t1]
    · rcases h2 : op 2 with v2 | m2
      · simp [retryGo, h1, t1, h2, RETRY_BACKOFF_MULTIPLIER]
      · by_cases t2 : isTeardownError m2 = true
        · simp [retryGo, h1, t1, h2, t2, RETRY_BACKOFF_MULTIPLIER]
        · rcases h3 : op 3 with v3 | m3 <;>
            simp [retryGo, h1, t1, h2, t2, h3, RETRY_BACKOFF_MULTIPLIER]

/-- C4: with default parameters, `retryWithBackoff` invokes the operation at
most 3 times; the delay recorded before retry attempt `i + 2` (the `i`-th
awaited delay, 0-based) is `1000 * 2 ^ i` ms, i.e. `baseDelay * multiplier ^
(attempt - 1)`; and an environment-teardown error (message containing
`CancellationTokenSource` or `disposed`) propagates to the caller the moment
it is thrown, with no further attempt and no further delay. -/
theorem c4_retryWithBackoff_default {T : Type} (op : Nat → JsResult T) :
    (retryWithBackoffDefault op).calls.length ≤ 3
    ∧ (∀ i, i < (retryWithBackoffDefault op).delays.length →
        (retryWithBackoffDefault op).delays.get? i = some (1000 * 2 ^ i))
    ∧ (∀ m, isTeardownError m = true →
        (op 1 = .err m → retryWithBackoffDefault op = ⟨.err m, [1], []⟩)
        ∧ (∀ m1, isTeardownError m1 = false → op 1 = .err m1 → op 2 = .err m →
            retryWithBackoffDefault op = ⟨.err m, [1, 2], [1000]⟩)) := by
  refine ⟨(retryDefault_obs op).1, ?_, ?_⟩
  · intro i hi
    rcases (retryDefault_obs op).2 with hd | hd | hd <;> rw [hd] at hi ⊢ <;>
      simp only [List.length_nil, List.length_cons] at hi
    · exact absurd hi (by omega)
    · obtain rfl : i = 0 := by omega
      rfl
    · rcases i with _ | i
      · rfl
      · rcases i with _ | i
        · rfl
        · omega
  · intro m hm
    constructor
    · intro h1
      unfold retryWithBackoffDefault retryWithBackoff MAX_RETRY_ATTEMPTS RETRY_DELAY_MS
      rw [range'_one_three]
      simp [retryGo, h1, hm]
    · intro m1 t1 h1 h2
      unfold retryWithBackoffDefault retryWithBackoff MAX_RETRY_ATTEMPTS RETRY_DELAY_MS
      rw [range'_one_three]
      simp [retryGo, h1, t1, h2, hm, RETRY_BACKOFF_MULTIPLIER]

/-- A concrete operation for exercising `c4_retryWithBackoff_default`:
fails with a teardown error on the first attempt. -/
def c4SampleOp : Nat → JsResult Nat :=
  fun k => if k = 1 then .err "disposed" else .ok 7

/-- Witness for `c4_retryWithBackoff_default`: a run that hits a teardown
error on attempt 1 stops immediately with that error, one call, no delay. -/
theorem c4_retryWithBackoff_default_witness :
    isTeardownError "disposed" = true ∧
    retryWithBackoffDefault c4SampleOp = ⟨.err "disposed", [1], []⟩ := by
  have hm : isTeardownError "disposed" = true := by decide
  have hop : c4SampleOp 1 = .err "disposed" := rfl
  exact ⟨hm, ((c4_retryWithBackoff_default c4SampleOp).2.2 "disposed" hm).1 hop⟩

/-- `interface LocalDiamondData` (robust-diamond-persistence.ts). -/
structure LocalDiamondData where
  address : String
  name : String
  diamonds : Nat
  timestamp : Int
  version : Nat
deriving DecidableEq, Repr

/-- `interface FailedSave` (robust-diamond-persistence.ts). -/
structure FailedSave where
  address : String
  name : String
  diamonds : Nat
  attempts : Nat
  lastAttempt : Int
deriving DecidableEq, Repr

/-- `interface SaveMetrics` (robust-diamond-persistence.ts). -/
structure SaveMetrics where
  totalAttempts : Nat
  successfulSaves : Nat
  failedSaves : Nat
  retryAttempts : Nat
  localBackupsUsed : Nat
  lastSaveTime : Int
deriving DecidableEq, Repr

/-- The initial value of the module-level `saveMetrics`. -/
def initialSaveMetrics : SaveMetrics := ⟨0, 0, 0, 0, 0, 0⟩

/-- The module-level mutable state of robust-diamond-persistence.ts that the
verified operations touch: `localDiamondStorage` (a `Map`), the
`failedSavesQueue` array, and `saveMetrics`. -/
structure RobustState where
  localDiamondStorage : List (String × LocalDiamondData)
  failedSavesQueue : List FailedSave
  saveMetrics : SaveMetrics
deriving DecidableEq, Repr

/-- `Map.prototype.set`: overwrite the entry at key `k` or append a new one. -/
def storeSet (st : List (String × LocalDiamondData)) (k : String)
    (v : LocalDiamondData) : List (String × LocalDiamondData) :=
  match st with
  | [] => [(k, v)]
  | (k', v') :: rest =>
    if k' = k then (k, v) :: rest else (k', v') :: storeSet rest k v

/-- `Map.prototype.get`. -/
def storeGet (st : List (String × LocalDiamondData)) (k : String) :
    Option LocalDiamondData :=
  match st with
  | [] => none
  | (k', v') :: rest => if k' = k then some v' else storeGet rest k

/-- `savePlayerDiamondsLocally(address, name, diamonds)`: unconditionally
store `{address, name, diamonds, timestamp: Date.now(), version: 2}` in
`localDiamondStorage` and bump `saveMetrics.localBackupsUsed`. -/
def savePlayerDiamondsLocally (now : Int) (address name : String)
    (diamonds : Nat) (st : RobustState) : RobustState :=
  { st with
    localDiamondStorage :=
      storeSet st.localDiamondStorage address ⟨address, name, diamonds, now, 2⟩,
    saveMetrics :=
      { st.saveMetrics with
        localBackupsUsed := st.saveMetrics.localBackupsUsed + 1 } }

/-- `loadPlayerDiamondsLocally(address)`: the stored count, or 0. -/
def loadPlayerDiamondsLocally (st : RobustState) (address : String) : Nat :=
  match storeGet st.localDiamondStorage address with
  | some localData => localData.diamonds
  | none => 0

/-- Outcomes of the three parallel replica writes issued by one
`savePlayerDiamondsRobust` call (`savePlayerDiamondsPrimary`,
`savePlayerDiamondsBackup`, `saveGlobalDiamondBackup`).  Each of the three
functions catches every error it can raise and resolves to a boolean, so all
three `Promise.allSettled` slots are fulfilled booleans. -/
structure RemoteOutcomes where
  primaryOk : Bool
  backupOk : Bool
  globalOk : Bool
deriving DecidableEq, Repr

/-- `results.filter(r => r.status === 'fulfilled' && r.value === true).length`. -/
def RemoteOutcomes.successCount (o : RemoteOutcomes) : Nat :=
  (if o.primaryOk then 1 else 0) + (if o.backupOk then 1 else 0) +
    (if o.globalOk then 1 else 0)

/-- `savePlayerDiamondsRobust(address, name, diamonds)`: update the metrics,
fan the write out to the three replicas (outcomes `o`), always write the
local fallback cache, enqueue a `FailedSave` with `attempts: 0` when no
replica accepted, and `return true` unconditionally (source comment:
"RETOURNER TRUE même si Firebase échoue (car on a le fallback local)").
`limitPlayerBackups` only reads and re-writes remote documents inside its own
try/catch, so it does not affect the in-process state modelled here; the
fire-and-forget `processFailedSavesQueue()` trigger is modelled by invoking
`processFailedSavesQueue` separately, as the background drain. -/
def savePlayerDiamondsRobust (o : RemoteOutcomes) (now : Int)
    (address name : String) (diamonds : Nat) (st : RobustState) :
    RobustState × Bool :=
  let m0 := { st.saveMetrics with
    totalAttempts := st.saveMetrics.totalAttempts + 1, lastSaveTime := now }
  let m1 := if o.successCount > 0 then
      { m0 with successfulSaves := m0.successfulSaves + 1 }
    else { m0 with failedSaves := m0.failedSaves + 1 }
  let st1 := savePlayerDiamondsLocally now address name diamonds
    { st with saveMetrics := m1 }
  let st2 := if o.successCount = 0 then
      { st1 with
        failedSavesQueue :=
          st1.failedSavesQueue ++ [⟨address, name, diamonds, 0, now⟩] }
    else st1
  (st2, true)

/-- The body of `processFailedSavesQueue`'s `for` loop, which walks the queue
from index `length - 1` down to 0 (the first argument is the current index
plus one).  Entries attempted less than `retryDelay = 5000` ms ago are
skipped; otherwise `attempts` is bumped in place, `savePlayerDiamondsRobust`
is re-run (the `ctr`-th remote round, outcomes `env ctr`), and the entry is
spliced out when that call returns `true` or `attempts` reached
`MAX_RETRY_ATTEMPTS`.  Entries pushed by the nested robust save land beyond
the loop's starting length and are not visited in this pass. -/
def processLoop (env : Nat → RemoteOutcomes) (now : Int) :
    Nat → RobustState → Nat → RobustState × Nat
  | 0, st, ctr => (st, ctr)
  | i + 1, st, ctr =>
    match st.failedSavesQueue.get? i with
    | none => processLoop env now i st ctr
    | some fs =>
      if now - fs.lastAttempt < 5000 then processLoop env now i st ctr
      else
        let fs' : FailedSave := { fs with attempts := fs.attempts + 1, lastAttempt := now }
        let st1 := { st with
          failedSavesQueue := st.failedSavesQueue.set i fs',
          saveMetrics := { st.saveMetrics with
            retryAttempts := st.saveMetrics.retryAttempts + 1 } }
        let res := savePlayerDiamondsRobust (env ctr) now fs'.address fs'.name
          fs'.diamonds st1
        if res.2 then
          processLoop env now i
            { res.1 with failedSavesQueue := res.1.failedSavesQueue.eraseIdx i }
            (ctr + 1)
        else if fs'.attempts ≥ MAX_RETRY_ATTEMPTS then
          processLoop env now i
            { res.1 with failedSavesQueue := res.1.failedSavesQueue.eraseIdx i }
            (ctr + 1)
        else processLoop env now i res.1 (ctr + 1)

/-- `processFailedSavesQueue()`: one drain pass over the queue.  The
`isProcessingQueue` flag only guards against re-entrant drains (it is set for
the whole pass and suppresses the nested trigger inside
`savePlayerDiamondsRobust`), which the sequential model renders inherently;
the early return on an empty queue is kept. -/
def processFailedSavesQueue (env : Nat → RemoteOutcomes) (now : Int)
    (st : RobustState) : RobustState × Nat :=
  if st.failedSavesQueue = [] then (st, 0)
  else processLoop env now st.failedSavesQueue.length st 0

lemma storeGet_storeSet (st : List (String × LocalDiamondData)) (k : String)
    (v : LocalDiamondData) : storeGet (storeSet st k v) k = some v := by
  induction st with
  | nil => simp [storeSet, storeGet]
  | cons p rest ih =>
    rcases p with ⟨k', v'⟩
    by_cases h : k' = k <;> simp [storeSet, storeGet, h, ih]

/-- C3: every call of the coordinated write `savePlayerDiamondsRobust`
writes the local fallback cache regardless of the three remote outcomes and
reports `true` to the caller — in particular also when every remote replica
write fails.  (The embedding is a total function: no execution path of the
source throws, since all replica writes and `limitPlayerBackups` catch their
own errors and `Promise.allSettled` never rejects.) -/
theorem c3_savePlayerDiamondsRobust_never_fails (o : RemoteOutcomes)
    (now : Int) (address name : String) (diamonds : Nat) (st : RobustState) :
    (savePlayerDiamondsRobust o now address name diamonds st).2 = true ∧
    storeGet (savePlayerDiamondsRobust o now address name diamonds
        st).1.localDiamondStorage address = some ⟨address, name, diamonds, now, 2⟩ := by
  unfold savePlayerDiamondsRobust
  by_cases h : o.successCount = 0 <;>
    simp [h, savePlayerDiamondsLocally, storeGet_storeSet]

/-- Initial state for exhibiting the retry-queue bug: one queued entry,
never re-attempted (`attempts: 0`), last attempted at time 0. -/
def c2InitialState : RobustState :=
  ⟨[], [⟨"p1", "Alice", 7, 0, 0⟩], initialSaveMetrics⟩

/-- A remote environment in which every replica write fails. -/
def allRemoteFail : Nat → RemoteOutcomes := fun _ => ⟨false, false, false⟩

/-- C2: evaluating the drain at the failing input.  One entry with
`attempts: 0` is processed at time 5000 while every remote replica write
fails; because `savePlayerDiamondsRobust` returns `true` unconditionally,
the entry is removed from the queue after this single failed re-attempt
(`retryAttempts` shows exactly one) and the nested robust save enqueues a
fresh replacement entry with `attempts` reset to 0 — the
`attempts >= MAX_RETRY_ATTEMPTS` removal branch is unreachable and the
3-attempt budget never takes effect. -/
theorem c2_retry_entry_dropped_after_one_failed_reattempt :
    (processFailedSavesQueue allRemoteFail 5000 c2InitialState).1.failedSavesQueue
        = [⟨"p1", "Alice", 7, 0, 5000⟩] ∧
    (processFailedSavesQueue allRemoteFail 5000
        c2InitialState).1.saveMetrics.retryAttempts = 1 := by
  constructor <;> rfl

/-- The shape `loadPlayerDiamondsRobust` reads from each remote source: a
JSON object whose `diamonds` field may be absent or not a number (modelled
as `none`; `data.diamonds || 0` then yields 0). -/
structure DiamondReadDoc where
  diamonds : Option Nat
deriving DecidableEq, Repr

/-- One slot of the `Promise.allSettled` read fan-out in
`loadPlayerDiamondsRobust`: `fetch(url).then(r => r.ok ? r.json() : null)`
either rejects, or fulfills with `null` (non-ok response / JSON null), or
fulfills with a parsed document. -/
inductive SourceFetch where
  | rejected : SourceFetch
  | fulfilled : Option DiamondReadDoc → SourceFetch
deriving DecidableEq, Repr

/-- The per-source analysis in `loadPlayerDiamondsRobust`'s `forEach`: a
fulfilled, non-null document contributes `data.diamonds || 0`; a rejected or
null slot contributes nothing. -/
def sourceReading : SourceFetch → Option Nat
  | .fulfilled (some d) => some (d.diamonds.getD 0)
  | _ => none

/-- `diamonds.length === 0 ? 0 : Math.max(...diamonds)` — the final step of
`loadPlayerDiamondsRobust`. -/
def mathMaxList : List Nat → Nat
  | [] => 0
  | v :: vs => vs.foldl max v

/-- `loadPlayerDiamondsRobust(address)`: fan reads out to the primary
record, the per-player backup and the global backup index, keep the strictly
positive readings, append the local fallback cache value when positive, and
return the maximum of the collected values (0 when none). -/
def loadPlayerDiamondsRobust (primary backup1 global : SourceFetch)
    (st : RobustState) (address : String) : Nat :=
  let push := fun (acc : List Nat) (s : SourceFetch) =>
    match sourceReading s with
    | some c => if c > 0 then acc ++ [c] else acc
    | none => acc
  let ds0 := push (push (push [] primary) backup1) global
  let localDiamonds := loadPlayerDiamondsLocally st address
  let ds := if localDiamonds > 0 then ds0 ++ [localDiamonds] else ds0
  mathMaxList ds

/-- Spec-side description of the reconciler's inputs, following the claim's
words: the successfully parsed readings of the four sources (primary record,
per-player backup, global backup index, local fallback cache), restricted to
the non-zero ones. -/
def gatheredNonZeroReadings (primary backup1 global : SourceFetch)
    (st : RobustState) (address : String) : List Nat :=
  ([sourceReading primary, sourceReading backup1, sourceReading global,
      (storeGet st.localDiamondStorage address).map
        LocalDiamondData.diamonds].filterMap id).filter
    (fun v => v ≠ 0)

/-- The reconciled read over the settled aftermath of concurrent robust
writes.  A robust write carrying value `v` leaves `{.., diamonds: v, ..}` at
the primary record (`savePlayerDiamondsPrimary`), `{diamonds: v, ..}` at the
per-player backup (`savePlayerDiamondsBackup`), `{name, diamonds: v, ..}`
under the player's key of the global index (`saveGlobalDiamondBackup`), and
`v` in the local cache (`savePlayerDiamondsLocally`); every replica is
last-write-wins, so after settling, source `i` holds the value `f i` of
whichever write landed on it last (0 = primary, 1 = per-player backup,
2 = global index, 3 = local cache). -/
def settledReconciledRead (address name : String) (t : Int)
    (f : Fin 4 → Nat) : Nat :=
  loadPlayerDiamondsRobust
    (.fulfilled (some ⟨some (f 0)⟩))
    (.fulfilled (some ⟨some (f 1)⟩))
    (.fulfilled (some ⟨some (f 2)⟩))
    ⟨storeSet [] address ⟨address, name, f 3, t, 2⟩, [], initialSaveMetrics⟩
    address

lemma foldl_max (a : Nat) (l : List Nat) :
    l.foldl max a = max a (l.foldr max 0) := by
  induction l generalizing a with
  | nil => simp
  | cons x xs ih => simp [List.foldl, List.foldr, ih (max a x), Nat.max_assoc]

lemma mathMaxList_eq_foldr (l : List Nat) : mathMaxList l = l.foldr max 0 := by
  cases l with
  | nil => rfl
  | cons v vs => simp [mathMaxList, List.foldr, foldl_max]

/-- The reconciled read is the `max`-fold of the gathered non-zero readings. -/
lemma load_eq_fold_gathered (p b g : SourceFetch) (st : RobustState)
    (address : String) :
    loadPlayerDiamondsRobust p b g st address
      = (gatheredNonZeroReadings p b g st address).foldr max 0 := by
  unfold loadPlayerDiamondsRobust gatheredNonZeroReadings loadPlayerDiamondsLocally
  rcases hp : sourceReading p with _ | (_ | cp) <;>
    rcases hb : sourceReading b with _ | (_ | cb) <;>
      rcases hg : sourceReading g with _ | (_ | cg) <;>
        rcases hl : storeGet st.localDiamondStorage address with _ | ⟨la, ln, _ | ld, lt, lv⟩ <;>
          simp [hp, hb, hg, hl, mathMaxList_eq_foldr]

lemma le_foldr_max (a : Nat) (l : List Nat) (h : a ∈ l) :
    a ≤ l.foldr max 0 := by
  induction l with
  | nil => cases h
  | cons x xs ih =>
    rcases List.mem_cons.mp h with rfl | hmem
    · exact Nat.le_max_left a (xs.foldr max 0)
    · exact le_trans (ih hmem) (Nat.le_max_right x (xs.foldr max 0))

/-- C1 (amended): the reconciled read equals the maximum of all successfully
parsed non-zero readings gathered from the four sources, 0 when there is
none; and after `n` concurrent writes carrying `vals` have settled — each
source now holding the value of whichever write landed on it last — the
reconciled read equals `max vals` PROVIDED at least one source's last-landed
write carries that maximum (the unconditional claim fails, see the
counterexample: the maximal write can be overwritten on every source). -/
theorem c1_reconciled_read_amended :
    (∀ (p b g : SourceFetch) (st : RobustState) (address : String),
        loadPlayerDiamondsRobust p b g st address
          = (gatheredNonZeroReadings p b g st address).foldr max 0)
    ∧ (∀ (vals : List Nat) (address name : String) (t : Int) (f : Fin 4 → Nat),
        (∀ i, f i ∈ vals) → (∃ i, f i = vals.foldr max 0) →
        settledReconciledRead address name t f = vals.foldr max 0) := by
  constructor
  · exact load_eq_fold_gathered
  · intro vals address name t f h1 h2
    have hset : settledReconciledRead address name t f
        = ([f 0, f 1, f 2, f 3].filter (fun v => v ≠ 0)).foldr max 0 := by
      unfold settledReconciledRead
      rw [load_eq_fold_gathered]
      simp [gatheredNonZeroReadings, sourceReading, storeSet, storeGet]
    have hfilter : ∀ l : List Nat,
        (l.filter (fun v => v ≠ 0)).foldr max 0 = l.foldr max 0 := by
      intro l
      induction l with
      | nil => rfl
      | cons x xs ih =>
        simp only [ne_eq, decide_not] at ih
        by_cases h : x = 0 <;> simp [h, ih]
    have h4 : ∀ i : Fin 4, f i ∈ [f 0, f 1, f 2, f 3] := by
      intro i; fin_cases i <;> simp
    rw [hset, hfilter]
    apply le_antisymm
    · simp only [List.foldr, Nat.max_le]
      exact ⟨le_foldr_max _ _ (h1 0), le_foldr_max _ _ (h1 1),
        le_foldr_max _ _ (h1 2), le_foldr_max _ _ (h1 3), Nat.zero_le _⟩
    · obtain ⟨i, hi⟩ := h2
      calc vals.foldr max 0 = f i := hi.symm
        _ ≤ [f 0, f 1, f 2, f 3].foldr max 0 := le_foldr_max _ _ (h4 i)

/-- A settling of two concurrent writes carrying 5 and 3 in which the write
carrying 3 landed last on every source. -/
def lastLandedWriteThree : Fin 4 → Nat := fun _ => 3

/-- C1 counterexample: two concurrent writes carry the values `[5, 3]`
(`max = 5`).  Each source's last-landed value (3) is one of the written
values, so the writes have fully settled into the sources — yet the
reconciled read returns 3, not `max = 5`: the claim's unconditional
`read = max(v1..vn)` is false. -/
theorem c1_reconciled_read_counterexample :
    (3 : Nat) ∈ [5, 3] ∧
    settledReconciledRead "p1" "Alice" 0 lastLandedWriteThree = 3 ∧
    List.foldr max 0 [5, 3] = 5 ∧ (3 : Nat) ≠ 5 := by
  refine ⟨by decide, by rfl, by decide, by decide⟩

/-- A settling in which every source's last-landed write carries 5. -/
def lastLandedWriteFive : Fin 4 → Nat := fun _ => 5

/-- Witness for `c1_reconciled_read_amended`: with writes `[2, 5]` and the
maximal write (5) the last to land on every source, the reconciled read is
`max [2, 5] = 5`. -/
theorem c1_reconciled_read_amended_witness :
    settledReconciledRead "p1" "Alice" 0 lastLandedWriteFive
      = List.foldr max 0 [2, 5] :=
  c1_reconciled_read_amended.2 [2, 5] "p1" "Alice" 0 lastLandedWriteFive
    (by decide) (by decide)

/-- `verifyDiamondIntegrity(address, name, currentDiamonds)`: compare the
in-memory value against a fresh reconciled read (`verified`, the result of
`loadPlayerDiamondsRobust`); on disagreement take the higher value, but
write it back (`savePlayerDiamondsRobust`, remote outcomes `o`) only when it
strictly exceeds the in-memory value.  Returns the updated module state, the
value the caller adopts, and whether a write-back happened. -/
def verifyDiamondIntegrity (verified : Nat) (o : RemoteOutcomes) (now : Int)
    (address name : String) (currentDiamonds : Nat) (st : RobustState) :
    RobustState × Nat × Bool :=
  if verified ≠ currentDiamonds then
    let correctedDiamonds := max currentDiamonds verified
    if correctedDiamonds > currentDiamonds then
      ((savePlayerDiamondsRobust o now address name correctedDiamonds st).1,
        correctedDiamonds, true)
    else (st, currentDiamonds, false)
  else (st, currentDiamonds, false)

/-- C9 counterexample: in-memory value 5, fresh reconciled read 3.  The two
disagree and the higher value (5) wins, but nothing is written back to the
replicas (third component `false`), against the claim that on every
disagreement the winning value "is written back to all replicas". -/
theorem c9_integrity_check_counterexample :
    (verifyDiamondIntegrity 3 ⟨true, true, true⟩ 0 "p1" "Alice" 5
        ⟨[], [], initialSaveMetrics⟩).2 = (5, false) ∧ (3 : Nat) ≠ 5 := by
  refine ⟨by rfl, by decide⟩

/-- C9 (amended): whenever the periodic integrity check finds the fresh
reconciled read disagreeing with the in-memory value, the higher of the two
is adopted as the value the caller keeps; it is written back to all replicas
only when the fresh read strictly exceeds the in-memory value — when the
in-memory value is the higher one, it is kept but no write-back happens. -/
theorem c9_integrity_check_amended (verified : Nat) (o : RemoteOutcomes)
    (now : Int) (address name : String) (current : Nat) (st : RobustState) :
    (verifyDiamondIntegrity verified o now address name current st).2.1
        = max current verified
    ∧ ((verifyDiamondIntegrity verified o now address name current st).2.2 = true
        ↔ current < verified) := by
  rcases Nat.lt_trichotomy current verified with hlt | heq | hgt
  · have hne : verified ≠ current := by omega
    have hmax : max current verified = verified := Nat.max_eq_right (le_of_lt hlt)
    simp [verifyDiamondIntegrity, hne, hmax, hlt]
  · subst heq
    simp [verifyDiamondIntegrity]
  · have hne : verified ≠ current := by omega
    have hmax : max current verified = current := Nat.max_eq_left (le_of_lt hgt)
    have hnot : ¬ current < verified := by omega
    simp [verifyDiamondIntegrity, hne, hmax, hnot]

namespace GhostPositions

/-- `const BATCH_SIZE = 50` (ghost-positions-persistence.ts). -/
def BATCH_SIZE : Nat := 50

/-- `const LEADER_TIMEOUT = 30000` — the leadership lease, 30 s
(ghost-positions-persistence.ts; the spec's `LEASE_TIMEOUT`). -/
def LEADER_TIMEOUT : Int := 30000

/-- The leadership-token document at `/ghostSaveLeader.json`. -/
structure LeaderToken where
  leaderId : Int
  timestamp : Int
deriving DecidableEq, Repr

/-- The module-level mutable state of ghost-positions-persistence.ts touched
by leader election: `isLeader` and `lastLeaderCheckTime`. -/
structure LeaderState where
  isLeader : Bool
  lastLeaderCheckTime : Int
deriving DecidableEq, Repr

/-- Result of `fetch(url).then(r => r.ok ? r.json() : null)`: a rejection
(handled by the surrounding try/catch), or a possibly-null document. -/
inductive GetOutcome (α : Type) where
  | threw : GetOutcome α
  | success : Option α → GetOutcome α
deriving DecidableEq, Repr

/-- Outcome of a `fetch(…, {method: "PUT"})` or `PATCH`. -/
inductive PutOutcome where
  | ok : PutOutcome
  | notOk : PutOutcome
  | threw : PutOutcome
deriving DecidableEq, Repr

/-- `becomeLeader()`: read the current token (`getres`); with a token whose
age `Date.now() - currentLeader.timestamp` is below `LEADER_TIMEOUT` the
attempt returns `false` without any `put`; otherwise (no token, or an
expired one) a fresh token `{leaderId: Date.now(), timestamp: Date.now()}`
is `put` (both `Date.now()` readings modelled as `now`), and an accepted
response makes this process leader.  A thrown read or write is caught and
yields `false`.  Returns the new local state, the boolean result, and the
token this call attempted to `put` (`none` when no `put` was attempted). -/
def becomeLeader (getres : GetOutcome LeaderToken) (putres : PutOutcome)
    (now : Int) (st : LeaderState) : LeaderState × Bool × Option LeaderToken :=
  match getres with
  | .threw => (st, false, none)
  | .success currentLeader =>
    let expired : Bool := match currentLeader with
      | some tok => decide (LEADER_TIMEOUT ≤ now - tok.timestamp)
      | none => true
    if expired then
      match putres with
      | .ok => (⟨true, now⟩, true, some ⟨now, now⟩)
      | .notOk => (st, false, some ⟨now, now⟩)
      | .threw => (st, false, some ⟨now, now⟩)
    else (st, false, none)

/-- C5: if a leadership token exists whose timestamp `τ` satisfies
`now − τ < LEADER_TIMEOUT`, the acquisition attempt fails without writing a
token and leaves the local state untouched (the incumbent remains leader);
if no token exists or `now − τ ≥ LEADER_TIMEOUT`, the challenger puts the
fresh token `{leaderId: now, timestamp: now}` and, when the put is accepted,
becomes leader. -/
theorem c5_becomeLeader_lease (now : Int) (st : LeaderState)
    (putres : PutOutcome) :
    (∀ tok : LeaderToken, now - tok.timestamp < LEADER_TIMEOUT →
      becomeLeader (.success (some tok)) putres now st = (st, false, none))
    ∧ (∀ cur : Option LeaderToken,
        (cur = none ∨ ∃ tok, cur = some tok ∧ LEADER_TIMEOUT ≤ now - tok.timestamp) →
        (becomeLeader (.success cur) putres now st).2.2 = some ⟨now, now⟩
        ∧ (putres = .ok →
            becomeLeader (.success cur) putres now st
              = (⟨true, now⟩, true, some ⟨now, now⟩))) := by
  constructor
  · intro tok h
    have hno : ¬ (LEADER_TIMEOUT ≤ now - tok.timestamp) := not_le.mpr h
    simp [becomeLeader, hno]
  · intro cur hcur
    rcases hcur with rfl | ⟨tok, rfl, hle⟩
    · cases putres <;> simp [becomeLeader]
    · cases putres <;> simp [becomeLeader, hle]

/-- Witness for `c5_becomeLeader_lease`: at `now = 100000`, a token with
timestamp 90000 (age 10 s < 30 s) blocks acquisition; with no token present
an accepted put makes the challenger leader. -/
theorem c5_becomeLeader_lease_witness :
    becomeLeader (.success (some ⟨90000, 90000⟩)) .ok 100000 ⟨false, 0⟩
        = (⟨false, 0⟩, false, none)
    ∧ becomeLeader (.success none) .ok 100000 ⟨false, 0⟩
        = (⟨true, 100000⟩, true, some ⟨100000, 100000⟩) := by
  constructor
  · exact (c5_becomeLeader_lease 100000 ⟨false, 0⟩ .ok).1 ⟨90000, 90000⟩ (by decide)
  · exact ((c5_becomeLeader_lease 100000 ⟨false, 0⟩ .ok).2 none (Or.inl rfl)).2 rfl

/-- `checkAndRenewLeadership()`: non-leaders return immediately; a leader
re-puts its token `{leaderId: Date.now(), timestamp: now}` when more than
5000 ms passed since the last check.  The response status of the renewal
`put` is never inspected and a rejection is caught and only logged, so the
outcome `putres` influences nothing; `isLeader` is never written. -/
def checkAndRenewLeadership (_putres : PutOutcome) (now : Int)
    (st : LeaderState) : LeaderState × Option LeaderToken :=
  if st.isLeader = false then (st, none)
  else if 5000 < now - st.lastLeaderCheckTime then
    ({ st with lastLeaderCheckTime := now }, some ⟨now, now⟩)
  else (st, none)

/-- C6: a process that holds leadership never demotes itself — whatever the
renewal put's outcome (accepted, rejected, or thrown), `isLeader` stays
`true` after `checkAndRenewLeadership`. -/
theorem c6_no_self_demotion (putres : PutOutcome) (now : Int)
    (st : LeaderState) (h : st.isLeader = true) :
    ((checkAndRenewLeadership putres now st).1).isLeader = true := by
  unfold checkAndRenewLeadership
  by_cases h2 : 5000 < now - st.lastLeaderCheckTime <;> simp [h, h2]

/-- Witness for `c6_no_self_demotion`: a leader whose renewal put throws is
still leader. -/
theorem c6_no_self_demotion_witness :
    ((checkAndRenewLeadership .threw 6000 ⟨true, 0⟩).1).isLeader = true :=
  c6_no_self_demotion .threw 6000 ⟨true, 0⟩ rfl

/-- `Vector3` positional data (only carried through, never computed on). -/
structure Vec3 where
  x : Rat
  y : Rat
  z : Rat
deriving DecidableEq, Repr

/-- The batch loop of `saveGhostPositions` (`batchIndex` from 0 to
`numBatches - 1`; the first argument is the number of remaining batches).
Batch `batchIndex` collects the keys `ghost_i` for
`i ∈ [batchIndex*BATCH_SIZE, min(batchIndex*BATCH_SIZE + BATCH_SIZE, positions.length))`
whose position is present (`if (pos)`), and issues one `PATCH` with them;
per issued call we record that index list.  A non-ok response only skips the
in-memory merge (`continue`); a rejected fetch propagates to the function's
try/catch and aborts the remaining batches. -/
def batchLoop (resp : Nat → PutOutcome) (positions : List (Option Vec3)) :
    Nat → Nat → List (List Nat)
  | 0, _ => []
  | remaining + 1, batchIndex =>
    let start := batchIndex * BATCH_SIZE
    let stop := min (start + BATCH_SIZE) positions.length
    let keys := (List.range' start (stop - start)).filter
      (fun i => ((positions.get? i).getD none).isSome)
    match resp batchIndex with
    | .threw => [keys]
    | _ => keys :: batchLoop resp positions remaining (batchIndex + 1)

/-- `saveGhostPositions(positions)`: only the leader writes; the collection
is split into `numBatches = Math.ceil(positions.length / BATCH_SIZE)`
batches, each applied with one `PATCH` to `/ghostPositions.json`.  The
result lists, per issued patch call and in order, the entity indices whose
key `ghost_i` the call's body contains. -/
def saveGhostPositions (resp : Nat → PutOutcome) (isLeader : Bool)
    (positions : List (Option Vec3)) : List (List Nat) :=
  if isLeader then
    batchLoop resp positions ((positions.length + BATCH_SIZE - 1) / BATCH_SIZE) 0
  else []

lemma keys_formula (ps : List Vec3) (start : Nat) :
    (List.range' start (min (start + BATCH_SIZE) (ps.map some).length - start)).filter
        (fun i => (((ps.map some).get? i).getD none).isSome)
      = List.range' start (min BATCH_SIZE (ps.length - start)) := by
  have hlen : (ps.map some).length = ps.length := List.length_map ps some
  have hcnt : min (start + BATCH_SIZE) ps.length - start
      = min BATCH_SIZE (ps.length - start) := by omega
  rw [hlen, hcnt]
  apply List.filter_eq_self.mpr
  intro i hi
  have hbound := List.mem_range'_1.mp hi
  have hlt : i < ps.length := by omega
  have hv : ps[i]? = some (ps.get ⟨i, hlt⟩) := List.getElem?_eq_getElem hlt
  simp [List.getElem?_map, hv]

lemma batchLoop_all_present (resp : Nat → PutOutcome) (ps : List Vec3)
    (hresp : ∀ k, resp k ≠ .threw) (remaining : Nat) :
    ∀ batchIndex : Nat,
      batchLoop resp (ps.map some) remaining batchIndex
        = (List.range' batchIndex remaining).map
            (fun k => List.range' (k * BATCH_SIZE)
              (min BATCH_SIZE (ps.length - k * BATCH_SIZE))) := by
  induction remaining with
  | zero => intro bi; rfl
  | succ r ih =>
    intro bi
    simp only [batchLoop]
    rcases hr : resp bi with _ | _ | _
    · simp only [hr]
      rw [List.range'_succ, List.map_cons]
      exact congrArg₂ List.cons (keys_formula ps (bi * BATCH_SIZE)) (ih (bi + 1))
    · simp only [hr]
      rw [List.range'_succ, List.map_cons]
      exact congrArg₂ List.cons (keys_formula ps (bi * BATCH_SIZE)) (ih (bi + 1))
    · exact absurd hr (hresp bi)

/-- C7: given a collection of `n` present entity positions and no aborted
fetch, the leader's batch writer issues exactly `⌈n / 50⌉` patch calls; call
`k` covers exactly the consecutive index range starting at `k*50` of length
`min 50 (n - k*50)` — so the calls' key sets are disjoint consecutive ranges
— and every call covers at most 50 entities. -/
theorem c7_saveGhostPositions_batches (resp : Nat → PutOutcome)
    (ps : List Vec3) (hresp : ∀ k, resp k ≠ .threw) :
    saveGhostPositions resp true (ps.map some)
        = (List.range ((ps.length + BATCH_SIZE - 1) / BATCH_SIZE)).map
            (fun k => List.range' (k * BATCH_SIZE)
              (min BATCH_SIZE (ps.length - k * BATCH_SIZE)))
    ∧ (saveGhostPositions resp true (ps.map some)).length
        = (ps.length + BATCH_SIZE - 1) / BATCH_SIZE
    ∧ ∀ c ∈ saveGhostPositions resp true (ps.map some), c.length ≤ BATCH_SIZE := by
  have hmain : saveGhostPositions resp true (ps.map some)
      = (List.range ((ps.length + BATCH_SIZE - 1) / BATCH_SIZE)).map
          (fun k => List.range' (k * BATCH_SIZE)
            (min BATCH_SIZE (ps.length - k * BATCH_SIZE))) := by
    unfold saveGhostPositions
    rw [if_pos rfl, List.length_map, List.range_eq_range']
    exact batchLoop_all_present resp ps hresp _ 0
  refine ⟨hmain, ?_, ?_⟩
  · rw [hmain]; simp
  · intro c hc
    rw [hmain] at hc
    obtain ⟨k, _, rfl⟩ := List.mem_map.mp hc
    simp [Nat.min_le_left]

/-- All patch calls accepted. -/
def allPatchOk : Nat → PutOutcome := fun _ => .ok

/-- 120 present entity positions. -/
def positions120 : List Vec3 := List.replicate 120 ⟨0, 0, 0⟩

/-- Witness for `c7_saveGhostPositions_batches`, at the claim's own
instance: 120 entities yield exactly 3 patch calls covering the index
ranges `[0,49]`, `[50,99]` and `[100,119]`. -/
theorem c7_saveGhostPositions_batches_witness :
    saveGhostPositions allPatchOk true (positions120.map some)
      = [List.range' 0 50, List.range' 50 50, List.range' 100 20] := by
  have h := (c7_saveGhostPositions_batches allPatchOk positions120
    (by intro k; simp [allPatchOk])).1
  rw [h]
  decide

end GhostPositions

namespace DiamondStates

/-- The `state` enum of a `DiamondState` lifecycle document. -/
inductive DState where
  | available
  | collected
  | dropped
  | hidden
  | emerging
  | collectible
  | disappearing
  | respawning
  | carried
deriving DecidableEq, Repr

/-- `interface DiamondState` (diamond-states-persistence.ts).  Timestamps
are JS millisecond clock readings and `collectTimer` is a duration in
seconds; both are modelled as `Rat` because `getDiamondCollectTimer`
divides a millisecond delta by 1000. -/
structure DiamondState where
  state : DState
  collectedBy : Option String
  collectedAt : Option Rat
  spawnPosition : GhostPositions.Vec3
  spawnedAt : Rat
  dropPosition : Option GhostPositions.Vec3
  droppedAt : Option Rat
  droppedBy : Option String
  collectTimer : Rat
  collectTimerStartedAt : Option Rat
  expiresAt : Rat
  respawnCount : Option Nat
deriving DecidableEq, Repr

/-- `Partial<DiamondState>`, the `data` argument of `saveDiamondState`: a
field that is present (even when explicitly set to `null`) overrides the
current document's field under the spread `{...currentState, ...data,
state}`.  The trailing `state` literal always wins, so a `state` member of
`data` could never be observed and is omitted here. -/
structure DiamondStatePartial where
  collectedBy : Option (Option String)
  collectedAt : Option (Option Rat)
  spawnPosition : Option GhostPositions.Vec3
  spawnedAt : Option Rat
  dropPosition : Option (Option GhostPositions.Vec3)
  droppedAt : Option (Option Rat)
  droppedBy : Option (Option String)
  collectTimer : Option Rat
  collectTimerStartedAt : Option (Option Rat)
  expiresAt : Option Rat
  respawnCount : Option (Option Nat)
deriving DecidableEq, Repr

/-- A `data` argument with no fields (`{}`). -/
def emptyPartial : DiamondStatePartial :=
  ⟨none, none, none, none, none, none, none, none, none, none, none⟩

/-- The spread `{...currentState, ...data, state}`. -/
def applyPartial (currentState : DiamondState) (data : DiamondStatePartial)
    (state : DState) : DiamondState where
  state := state
  collectedBy := data.collectedBy.getD currentState.collectedBy
  collectedAt := data.collectedAt.getD currentState.collectedAt
  spawnPosition := data.spawnPosition.getD currentState.spawnPosition
  spawnedAt := data.spawnedAt.getD currentState.spawnedAt
  dropPosition := data.dropPosition.getD currentState.dropPosition
  droppedAt := data.droppedAt.getD currentState.droppedAt
  droppedBy := data.droppedBy.getD currentState.droppedBy
  collectTimer := data.collectTimer.getD currentState.collectTimer
  collectTimerStartedAt :=
    data.collectTimerStartedAt.getD currentState.collectTimerStartedAt
  expiresAt := data.expiresAt.getD currentState.expiresAt
  respawnCount := data.respawnCount.getD currentState.respawnCount

/-- The default document substituted when `playerDiamondStates` has no entry
for the index: `state: 'available'`, zero spawn position, `spawnedAt:
Date.now()`, no drop/collect data, `collectTimer: 0`,
`collectTimerStartedAt: null`, `expiresAt: Date.now() + 10*60*1000` (both
`Date.now()` readings modelled as `now`), and no `respawnCount`. -/
def defaultDiamondState (now : Rat) : DiamondState where
  state := .available
  collectedBy := none
  collectedAt := none
  spawnPosition := ⟨0, 0, 0⟩
  spawnedAt := now
  dropPosition := none
  droppedAt := none
  droppedBy := none
  collectTimer := 0
  collectTimerStartedAt := none
  expiresAt := now + 10 * 60 * 1000
  respawnCount := none

/-- The module-level mutable state: the `playerDiamondStates` object (keys
`diamond_{index}` modelled by the index) and `currentPlayerId`. -/
structure DiamondStatesStore where
  playerDiamondStates : List (Nat × DiamondState)
  currentPlayerId : Option String
deriving DecidableEq, Repr

/-- Property lookup `playerDiamondStates[`diamond_{index}`]`. -/
def statesGet (m : List (Nat × DiamondState)) (index : Nat) :
    Option DiamondState :=
  match m with
  | [] => none
  | (k, v) :: rest => if k = index then some v else statesGet rest index

/-- Property assignment `playerDiamondStates[`diamond_{index}`] = v`. -/
def statesSet (m : List (Nat × DiamondState)) (index : Nat)
    (v : DiamondState) : List (Nat × DiamondState) :=
  match m with
  | [] => [(index, v)]
  | (k, v') :: rest =>
    if k = index then (index, v) :: rest else (k, v') :: statesSet rest index v

/-- `saveDiamondState(index, state, data)`: with no `currentPlayerId` set,
log and return `false`.  Otherwise load the current document (or the
default), build `updatedState = {...currentState, ...data, state}`, store it
in `playerDiamondStates` FIRST, then `PUT` it to
`/players/{playerId}/diamonds/diamond_{index}.json` and return
`response.ok`; a thrown fetch (teardown or not) is caught and yields
`false`, with the in-memory update still in place. -/
def saveDiamondState (putres : GhostPositions.PutOutcome) (now : Rat)
    (index : Nat) (state : DState) (data : DiamondStatePartial)
    (st : DiamondStatesStore) : DiamondStatesStore × Bool :=
  match st.currentPlayerId with
  | none => (st, false)
  | some _ =>
    let currentState :=
      (statesGet st.playerDiamondStates index).getD (defaultDiamondState now)
    let updatedState := applyPartial currentState data state
    let st1 := { st with
      playerDiamondStates := statesSet st.playerDiamondStates index updatedState }
    match putres with
    | .ok => (st1, true)
    | .notOk => (st1, false)
    | .threw => (st1, false)

/-- `getDiamondState(index)`: pure in-memory read. -/
def getDiamondState (index : Nat) (st : DiamondStatesStore) :
    Option DiamondState :=
  statesGet st.playerDiamondStates index

/-- `getDiamondCollectTimer(index)`: 0 when there is no document or no
(truthy) `collectTimerStartedAt`; otherwise
`max(0, collectTimer - (Date.now() - collectTimerStartedAt) / 1000)`. -/
def getDiamondCollectTimer (index : Nat) (st : DiamondStatesStore)
    (now : Rat) : Rat :=
  match getDiamondState index st with
  | none => 0
  | some state =>
    match state.collectTimerStartedAt with
    | none => 0
    | some t0 =>
      if t0 = 0 then 0
      else max 0 (state.collectTimer - (now - t0) / 1000)

/-- `updateDiamondCollectTimer(index, timer, startedAt)`: re-save the
document at its current `state` (`'hidden'` when absent) with the new
`collectTimer` and `collectTimerStartedAt`. -/
def updateDiamondCollectTimer (putres : GhostPositions.PutOutcome)
    (now : Rat) (index : Nat) (timer startedAt : Rat)
    (st : DiamondStatesStore) : DiamondStatesStore :=
  let currentDiamondState := match getDiamondState index st with
    | some s => s.state
    | none => .hidden
  (saveDiamondState putres now index currentDiamondState
    { emptyPartial with
      collectTimer := some timer,
      collectTimerStartedAt := some (some startedAt) } st).1

/-- `startDiamondCollectTimer(index, duration)`:
`updateDiamondCollectTimer(index, duration, Date.now())`. -/
def startDiamondCollectTimer (putres : GhostPositions.PutOutcome)
    (index : Nat) (duration : Rat) (now : Rat) (st : DiamondStatesStore) :
    DiamondStatesStore :=
  updateDiamondCollectTimer putres now index duration now st

lemma statesGet_statesSet (m : List (Nat × DiamondState)) (index : Nat)
    (v : DiamondState) : statesGet (statesSet m index v) index = some v := by
  induction m with
  | nil => simp [statesSet, statesGet]
  | cons p rest ih =>
    rcases p with ⟨k, v'⟩
    by_cases h : k = index <;> simp [statesSet, statesGet, h, ih]

/-- C8: starting the collect timer with duration `d` at a (positive)
wall-clock time `t0` and reading it at any later time `t0 + 1000·Δ` ms (Δ in
seconds, Δ ≥ 0) yields `max 0 (d − Δ)` seconds — the remaining time is
recomputed from the persisted start timestamp and the current clock, not
from a stored countdown; and whenever the document carries no persisted
start timestamp (or there is no document at all), the reading is 0. -/
theorem c8_collect_timer_resume (putres : GhostPositions.PutOutcome)
    (index : Nat) (d t0 delta : Rat) (st : DiamondStatesStore) (p : String)
    (hp : st.currentPlayerId = some p) (ht0 : 0 < t0) (_hdelta : 0 ≤ delta) :
    getDiamondCollectTimer index
        (startDiamondCollectTimer putres index d t0 st) (t0 + 1000 * delta)
      = max 0 (d - delta)
    ∧ (∀ (st' : DiamondStatesStore) (now : Rat),
        (∀ s, getDiamondState index st' = some s →
          s.collectTimerStartedAt = none) →
        getDiamondCollectTimer index st' now = 0) := by
  constructor
  · have ht0ne : t0 ≠ 0 := ne_of_gt ht0
    have harith : (t0 + 1000 * delta - t0) / 1000 = delta := by ring
    unfold startDiamondCollectTimer updateDiamondCollectTimer saveDiamondState
    rw [hp]
    cases putres <;>
      simp [getDiamondCollectTimer, getDiamondState, statesGet_statesSet,
        applyPartial, emptyPartial, ht0ne, harith]
  · intro st' now h
    unfold getDiamondCollectTimer
    cases hg : getDiamondState index st' with
    | none => rfl
    | some s => simp [h s hg]

/-- Witness for `c8_collect_timer_resume`: a timer of 10 s started at
`t0 = 2000` and read 4 s later shows 6 s remaining. -/
theorem c8_collect_timer_resume_witness :
    getDiamondCollectTimer 0
        (startDiamondCollectTimer .ok 0 10 2000 ⟨[], some "p1"⟩)
        (2000 + 1000 * 4)
      = max 0 (10 - 4) :=
  (c8_collect_timer_resume .ok 0 10 2000 4 ⟨[], some "p1"⟩ "p1" rfl
    (by norm_num) (by norm_num)).1

/-- C10: with a player set, `saveDiamondState` installs the merged document
(shallow-merge of the loaded-or-default document with the partial fields,
`state` replaced) into the in-memory map unconditionally — before the remote
put's outcome can matter — so when the put fails (non-ok or thrown) the call
returns `false` while `getDiamondState index` already returns the new merged
document: the local update is not rolled back. -/
theorem c10_saveDiamondState_not_rolled_back
    (putres : GhostPositions.PutOutcome) (now : Rat) (index : Nat)
    (state : DState) (data : DiamondStatePartial) (st : DiamondStatesStore)
    (p : String) (hp : st.currentPlayerId = some p) :
    getDiamondState index (saveDiamondState putres now index state data st).1
        = some (applyPartial
            ((statesGet st.playerDiamondStates index).getD
              (defaultDiamondState now))
            data state)
    ∧ (putres ≠ .ok →
        (saveDiamondState putres now index state data st).2 = false) := by
  cases putres <;>
    simp [saveDiamondState, hp, getDiamondState, statesGet_statesSet]

/-- Witness for `c10_saveDiamondState_not_rolled_back`: a save whose put
returns a non-ok response reports `false`, yet the merged document is
readable in memory. -/
theorem c10_saveDiamondState_not_rolled_back_witness :
    getDiamondState 0
        (saveDiamondState .notOk 0 0 .collected emptyPartial ⟨[], some "p1"⟩).1
      = some (applyPartial (defaultDiamondState 0) emptyPartial .collected)
    ∧ (saveDiamondState .notOk 0 0 .collected emptyPartial ⟨[], some "p1"⟩).2
      = false := by
  have h := c10_saveDiamondState_not_rolled_back .notOk 0 0 .collected
    emptyPartial ⟨[], some "p1"⟩ "p1" rfl
  exact ⟨h.1, h.2 (by decide)⟩

end DiamondStates

end GhostDiamonds
